import Mathlib

/-!
Shallow embedding of `src/payos/payos.service.ts` from the bus-ticket backend:
the PayOS payment service, whose core is the webhook reconciliation engine
`handleWebhook`, together with `cancelPayment`, `createPaymentLink` and
`generateOrderCode`.

Persistence (TypeORM repositories over Payment / Booking / SeatStatus rows) is
embedded as lists of records inside a `DB` value; `repository.update(filter,
patch)` becomes a map over the list patching every row matched by the filter,
`repository.findOne(filter)` becomes `List.find?`, and `repository.find(filter)`
becomes `List.filter`.  Each fallible repository or gateway call in the source
is given a Boolean fault flag so that the try/catch structure of the source can
be followed faithfully: a set flag means that call throws.  Gateway
notifications are collected into a list of `Notification` values.
-/

namespace BusTicket

/-- Modelled from the spec: `PaymentStatus` of `../entities/payment.entity`
(not under `src/`); the spec gives status ∈ {PENDING, COMPLETED, FAILED,
CANCELLED}. -/
inductive PaymentStatus where
  | PENDING
  | COMPLETED
  | FAILED
  | CANCELLED
deriving DecidableEq

/-- Modelled from the spec: `BookingStatus` of `../entities/booking.entity`
(not under `src/`); the spec gives status ∈ {PENDING, PAID, CANCELLED, …}. -/
inductive BookingStatus where
  | PENDING
  | PAID
  | CANCELLED
deriving DecidableEq

/-- Modelled from the spec: `SeatState` of `../entities/seat-status.entity`
(not under `src/`); the spec gives state ∈ {AVAILABLE, LOCKED/RESERVED,
BOOKED}. -/
inductive SeatState where
  | AVAILABLE
  | LOCKED
  | BOOKED
deriving DecidableEq

/-- Modelled from the spec: the `Payment` entity row (entity file not under
`src/`); fields as used by `payos.service.ts` and listed in the spec's data
model.  Timestamps are millisecond counts (`Nat`). -/
structure Payment where
  id : Nat
  bookingId : Option Nat
  provider : String
  transactionRef : String
  payosOrderCode : Nat
  amount : Nat
  status : PaymentStatus
deriving DecidableEq

/-- Modelled from the spec: the `Booking` entity row (entity file not under
`src/`); `cancelledAt` is the cancellation timestamp, `none` when unset. -/
structure Booking where
  id : Nat
  status : BookingStatus
  cancelledAt : Option Nat
deriving DecidableEq

/-- Modelled from the spec: the `SeatStatus` entity row (entity file not under
`src/`); `bookingId` is the owning booking reference (nullable), `lockedUntil`
the lock-expiry timestamp (nullable). -/
structure SeatStatus where
  id : Nat
  seatId : Nat
  tripId : Nat
  bookingId : Option Nat
  state : SeatState
  lockedUntil : Option Nat
deriving DecidableEq

/-- The persistent store seen by the service: the three repositories. -/
@[ext]
structure DB where
  payments : List Payment
  bookings : List Booking
  seatStatuses : List SeatStatus
deriving DecidableEq

/-- The verified webhook payload `{orderCode, amount, description, code, desc}`
destructured at the top of `handleWebhook`. -/
structure WebhookData where
  orderCode : Nat
  amount : Nat
  description : String
  code : String
  desc : String
deriving DecidableEq

/-- The structured result `{success, message}` returned by `handleWebhook`. -/
structure WebhookResponseDto where
  success : Bool
  message : String
deriving DecidableEq

/-- One gateway call, as emitted by `BookingGateway.notifyBookingStatusChanged`,
`SeatStatusGateway.notifySeatBooked` and `SeatStatusGateway.notifySeatsAvailable`. -/
inductive Notification where
  | bookingStatusChanged (bookingId : Nat) (status : BookingStatus)
  | seatBooked (tripId : Nat) (seatIds : List Nat)
  | seatsAvailable (tripId : Nat) (seatIds : List Nat)
deriving DecidableEq

/-- `paymentRepository.findOne({where: {payosOrderCode: orderCode}})`. -/
def findPaymentIn (ps : List Payment) (oc : Nat) : Option Payment :=
  ps.find? fun p => p.payosOrderCode == oc

/-- `paymentRepository.update({payosOrderCode: orderCode}, {status})`: patch
every row matching the order code. -/
def setPaymentStatus (ps : List Payment) (oc : Nat) (st : PaymentStatus) : List Payment :=
  ps.map fun p => if p.payosOrderCode == oc then { p with status := st } else p

/-- `bookingRepository.findOne({where: {id: bookingId}})`. -/
def findBookingIn (bs : List Booking) (b : Nat) : Option Booking :=
  bs.find? fun bk => bk.id == b

/-- `bookingRepository.update({id: bookingId}, {status: BookingStatus.PAID})`. -/
def setBookingPaid (bs : List Booking) (b : Nat) : List Booking :=
  bs.map fun bk => if bk.id == b then { bk with status := BookingStatus.PAID } else bk

/-- `bookingRepository.update({id: bookingId}, {status: CANCELLED, cancelledAt:
new Date()})`; `now` is the current time read by `new Date()`. -/
def setBookingCancelled (bs : List Booking) (b : Nat) (now : Nat) : List Booking :=
  bs.map fun bk =>
    if bk.id == b then { bk with status := BookingStatus.CANCELLED, cancelledAt := some now }
    else bk

/-- `seatStatusRepository.find({where: {bookingId}})`. -/
def seatsForBookingIn (ss : List SeatStatus) (b : Nat) : List SeatStatus :=
  ss.filter fun s => s.bookingId == some b

/-- `seatStatusRepository.update({bookingId}, {state: BOOKED, lockedUntil: null})`. -/
def setSeatsBooked (ss : List SeatStatus) (b : Nat) : List SeatStatus :=
  ss.map fun s =>
    if s.bookingId == some b then { s with state := SeatState.BOOKED, lockedUntil := none }
    else s

/-- `seatStatusRepository.update({bookingId}, {state: AVAILABLE, bookingId: null,
lockedUntil: null})`. -/
def setSeatsReleased (ss : List SeatStatus) (b : Nat) : List SeatStatus :=
  ss.map fun s =>
    if s.bookingId == some b then
      { s with state := SeatState.AVAILABLE, bookingId := none, lockedUntil := none }
    else s

/-- Find a payment by order code in the store. -/
def findPayment (db : DB) (oc : Nat) : Option Payment :=
  findPaymentIn db.payments oc

/-- Store after the payment-status update. -/
def updatePaymentStatus (db : DB) (oc : Nat) (st : PaymentStatus) : DB :=
  { db with payments := setPaymentStatus db.payments oc st }

/-- Find a booking by id in the store. -/
def findBooking (db : DB) (b : Nat) : Option Booking :=
  findBookingIn db.bookings b

/-- Store after the booking is marked PAID. -/
def markBookingPaid (db : DB) (b : Nat) : DB :=
  { db with bookings := setBookingPaid db.bookings b }

/-- Store after the booking is cancelled at time `now`. -/
def cancelBooking (db : DB) (b : Nat) (now : Nat) : DB :=
  { db with bookings := setBookingCancelled db.bookings b now }

/-- Store after the seats of booking `b` are confirmed BOOKED. -/
def bookSeats (db : DB) (b : Nat) : DB :=
  { db with seatStatuses := setSeatsBooked db.seatStatuses b }

/-- Store after the seats of booking `b` are released to AVAILABLE. -/
def releaseSeats (db : DB) (b : Nat) : DB :=
  { db with seatStatuses := setSeatsReleased db.seatStatuses b }

/-- Seat rows currently referencing booking `b`. -/
def seatsForBooking (db : DB) (b : Nat) : List SeatStatus :=
  seatsForBookingIn db.seatStatuses b

/-- Fault injection for `handleWebhook`: one flag per fallible call in the
source, `true` meaning that call throws.  `unexpectedFault` models a throw at a
point not covered by any inner try/catch (reaching only the outer catch). -/
structure Faults where
  unexpectedFault : Bool
  paymentFindFault : Bool
  paymentUpdateFault : Bool
  seatFindFault : Bool
  bookingFindFault : Bool
  bookingUpdateFault : Bool
  seatUpdateFault : Bool
  bookingNotifyFault : Bool
  seatNotifyFault : Bool
deriving DecidableEq

/-- The fault-free schedule: no call throws. -/
def Faults.none : Faults :=
  ⟨false, false, false, false, false, false, false, false, false⟩

/-- Result of one `handleWebhook` run: the returned dto, the store afterwards,
and the gateway notifications emitted, in call order. -/
structure HookOutcome where
  response : WebhookResponseDto
  db : DB
  notifications : List Notification
deriving DecidableEq

/-- The `notifyBookingStatusChanged` call of either branch: made only when the
booking fetch found a row, dropped when the gateway call throws (caught). -/
def bookingNotifs (faults : Faults) (bookingFetch : Option Booking) (b : Nat)
    (st : BookingStatus) : List Notification :=
  match bookingFetch with
  | some _ => if faults.bookingNotifyFault then [] else [Notification.bookingStatusChanged b st]
  | none => []

/-- The seat-gateway call of either branch: made only when the seat fetch
succeeded and returned a non-empty list; uses the trip id of the first fetched
row and the seat ids of all fetched rows; dropped when the gateway call throws
(caught). -/
def seatNotifs (faults : Faults) (seatFetch : Option (List SeatStatus)) (booked : Bool) :
    List Notification :=
  match seatFetch with
  | some (s :: rest) =>
      if faults.seatNotifyFault then []
      else if booked then [Notification.seatBooked s.tripId ((s :: rest).map fun x => x.seatId)]
      else [Notification.seatsAvailable s.tripId ((s :: rest).map fun x => x.seatId)]
  | some [] => []
  | none => []

/-- `handleWebhook(webhookData)` of `payos.service.ts` (lines 257-508).
`now` is the current time read by `new Date()` in the failure branch.  The
control flow follows the source: outcome is `success = (code === '00')`; the
payment lookup and the payment-status update each return a structured failure
on a thrown call; a missing payment returns `Payment record not found`; when
the payment has a booking reference, the seat rows and the booking row are
fetched (each fetch individually caught, a failed fetch only suppresses the
corresponding notification), then on success the booking is marked PAID and
the seats BOOKED, on failure the booking is CANCELLED with the cancellation
time and the seats released, each update individually caught so a thrown
update skips only itself; finally the booking and seat notifications are
attempted, each individually caught. -/
def handleWebhook (faults : Faults) (db : DB) (now : Nat) (event : WebhookData) : HookOutcome :=
  if faults.unexpectedFault then
    ⟨⟨false, "Failed to process webhook"⟩, db, []⟩
  else if faults.paymentFindFault then
    ⟨⟨false, "Database error when fetching payment record"⟩, db, []⟩
  else
    match findPayment db event.orderCode with
    | none => ⟨⟨false, "Payment record not found"⟩, db, []⟩
    | some payment =>
      if faults.paymentUpdateFault then
        ⟨⟨false, "Failed to update payment status"⟩, db, []⟩
      else
        let db1 := updatePaymentStatus db event.orderCode
          (if event.code == "00" then PaymentStatus.COMPLETED else PaymentStatus.FAILED)
        match payment.bookingId with
        | none => ⟨⟨true, "Webhook processed successfully"⟩, db1, []⟩
        | some b =>
          let seatFetch := if faults.seatFindFault then none else some (seatsForBooking db1 b)
          let bookingFetch := if faults.bookingFindFault then none else findBooking db1 b
          if event.code == "00" then
            let db2 := if faults.bookingUpdateFault then db1 else markBookingPaid db1 b
            let db3 := if faults.seatUpdateFault then db2 else bookSeats db2 b
            ⟨⟨true, "Webhook processed successfully"⟩, db3,
              bookingNotifs faults bookingFetch b BookingStatus.PAID ++
                seatNotifs faults seatFetch true⟩
          else
            let db2 := if faults.bookingUpdateFault then db1 else cancelBooking db1 b now
            let db3 := if faults.seatUpdateFault then db2 else releaseSeats db2 b
            ⟨⟨true, "Webhook processed successfully"⟩, db3,
              bookingNotifs faults bookingFetch b BookingStatus.CANCELLED ++
                seatNotifs faults seatFetch false⟩

/-- Fault injection for `cancelPayment`: one flag per fallible call, in source
order (provider cancel, payment lookup, payment update, booking update, seat
fetch, seat update, seat-availability notification). -/
structure CancelFaults where
  providerFault : Bool
  paymentFindFault : Bool
  paymentUpdateFault : Bool
  bookingUpdateFault : Bool
  seatFindFault : Bool
  seatUpdateFault : Bool
  notifyFault : Bool
deriving DecidableEq

/-- The fault-free schedule for `cancelPayment`. -/
def CancelFaults.none : CancelFaults :=
  ⟨false, false, false, false, false, false, false⟩

/-- Result of one `cancelPayment` run.  `threw = true` means the call ended in
the catch block, which logs and rethrows: the error propagates to the caller,
but every mutation already applied stays (there is no transaction to roll
back), so `db` and `notifications` record the state at the throw. -/
structure CancelOutcome where
  threw : Bool
  db : DB
  notifications : List Notification
deriving DecidableEq

/-- `cancelPayment(orderCode)` of `payos.service.ts` (lines 152-242).  Unlike
`handleWebhook`, no step has an inner try/catch: the first thrown call aborts
the rest and propagates (after the catch logs and rethrows), leaving all
earlier mutations in place.  Step order per the source: provider cancel,
payment lookup, then (when a payment is found) payment status → CANCELLED,
then (when it has a booking reference) booking → CANCELLED with timestamp,
seat fetch, seat release, and the seat-availability notification when the
fetch returned rows. -/
def cancelPayment (faults : CancelFaults) (db : DB) (now : Nat) (orderCode : Nat) :
    CancelOutcome :=
  if faults.providerFault then ⟨true, db, []⟩
  else if faults.paymentFindFault then ⟨true, db, []⟩
  else
    match findPayment db orderCode with
    | none => ⟨false, db, []⟩
    | some payment =>
      if faults.paymentUpdateFault then ⟨true, db, []⟩
      else
        let db1 := updatePaymentStatus db orderCode PaymentStatus.CANCELLED
        match payment.bookingId with
        | none => ⟨false, db1, []⟩
        | some b =>
          if faults.bookingUpdateFault then ⟨true, db1, []⟩
          else
            let db2 := cancelBooking db1 b now
            if faults.seatFindFault then ⟨true, db2, []⟩
            else
              match seatsForBooking db2 b with
              | [] =>
                if faults.seatUpdateFault then ⟨true, db2, []⟩
                else ⟨false, releaseSeats db2 b, []⟩
              | s :: rest =>
                if faults.seatUpdateFault then ⟨true, db2, []⟩
                else
                  let db3 := releaseSeats db2 b
                  if faults.notifyFault then ⟨true, db3, []⟩
                  else ⟨false, db3,
                    [Notification.seatsAvailable s.tripId ((s :: rest).map fun x => x.seatId)]⟩

/-- The request body of `createPaymentLink`, reduced to the fields that reach
the persisted Payment row. -/
structure CreatePaymentDto where
  bookingId : Option Nat
  amount : Nat
  description : String
deriving DecidableEq

/-- Result of one `createPaymentLink` run: `threw = true` means the error was
logged and rethrown to the caller. -/
structure CreateOutcome where
  threw : Bool
  db : DB
deriving DecidableEq

/-- `createPaymentLink(createPaymentDto)` of `payos.service.ts` (lines 58-121).
The provider call `payos.paymentRequests.create` happens first; only after it
returns is the Payment row built (status PENDING, provider `'PAYOS'`, the
provider's `paymentLinkId` as transaction reference) and saved.  A throw from
the provider call or from `save` reaches the catch, which logs and rethrows:
`providerFault` (resp. `saveFault`) injects those throws.  `newId` is the row
id assigned by the store on save, `orderCode` the generated order code,
`linkId` the provider's `paymentLinkId`. -/
def createPaymentLink (providerFault saveFault : Bool) (db : DB) (newId : Nat)
    (orderCode : Nat) (dto : CreatePaymentDto) (linkId : String) : CreateOutcome :=
  if providerFault then ⟨true, db⟩
  else if saveFault then ⟨true, db⟩
  else
    ⟨false,
      { db with payments := db.payments ++
          [⟨newId, dto.bookingId, "PAYOS", linkId, orderCode, dto.amount,
            PaymentStatus.PENDING⟩] }⟩

/-- Decimal concatenation of `a` with the 3-digit zero-padded decimal rendering
of `b` (which the source guarantees satisfies `b < 1000`): `parseInt` of the
string `` `${a}${b.toString().padStart(3, '0')}` `` appends exactly three
decimal digits to `a`, i.e. equals `a * 1000 + b`. -/
def concatPad3 (a b : Nat) : Nat := a * 1000 + b

/-- `generateOrderCode()` of `payos.service.ts` (lines 510-523), as a function
of the current millisecond timestamp `Date.now()` and the random draw
`Math.floor(Math.random() * 1000)` (always `< 1000`): the last five decimal
digits of the timestamp, concatenated with the 3-digit zero-padded draw,
parsed back to a number and clamped to `2147483647` by `Math.min`. -/
def generateOrderCode (timestamp random : Nat) : Nat :=
  min (concatPad3 (timestamp % 100000) random) 2147483647

/-! ### Observation predicates on store contents -/

/-- Every payment row with the given order code carries the given status. -/
def paymentsHaveStatus (ps : List Payment) (oc : Nat) (st : PaymentStatus) : Prop :=
  ∀ p ∈ ps, p.payosOrderCode = oc → p.status = st

instance (ps : List Payment) (oc : Nat) (st : PaymentStatus) :
    Decidable (paymentsHaveStatus ps oc st) :=
  inferInstanceAs (Decidable (∀ p ∈ ps, p.payosOrderCode = oc → p.status = st))

/-- Every booking row with the given id carries the given status. -/
def bookingsHaveStatus (bs : List Booking) (b : Nat) (st : BookingStatus) : Prop :=
  ∀ bk ∈ bs, bk.id = b → bk.status = st

instance (bs : List Booking) (b : Nat) (st : BookingStatus) :
    Decidable (bookingsHaveStatus bs b st) :=
  inferInstanceAs (Decidable (∀ bk ∈ bs, bk.id = b → bk.status = st))

/-- Every booking row with the given id is CANCELLED with cancellation time `now`. -/
def bookingsCancelledAt (bs : List Booking) (b : Nat) (now : Nat) : Prop :=
  ∀ bk ∈ bs, bk.id = b → bk.status = BookingStatus.CANCELLED ∧ bk.cancelledAt = some now

instance (bs : List Booking) (b : Nat) (now : Nat) :
    Decidable (bookingsCancelledAt bs b now) :=
  inferInstanceAs (Decidable (∀ bk ∈ bs, bk.id = b →
    bk.status = BookingStatus.CANCELLED ∧ bk.cancelledAt = some now))

/-- Every seat row referencing booking `b` is BOOKED with its lock-expiry cleared. -/
def seatsBookedFor (ss : List SeatStatus) (b : Nat) : Prop :=
  ∀ s ∈ ss, s.bookingId = some b → s.state = SeatState.BOOKED ∧ s.lockedUntil = none

instance (ss : List SeatStatus) (b : Nat) : Decidable (seatsBookedFor ss b) :=
  inferInstanceAs (Decidable (∀ s ∈ ss, s.bookingId = some b →
    s.state = SeatState.BOOKED ∧ s.lockedUntil = none))

/-- Row-by-row correspondence between a pre-state and a post-state seat list:
every pre-state row that referenced booking `b` has become AVAILABLE with its
booking reference and lock-expiry cleared, and nothing else about it changed. -/
def seatsReleasedFrom (pre post : List SeatStatus) (b : Nat) : Prop :=
  post.length = pre.length ∧
  ∀ pr ∈ pre.zip post, pr.1.bookingId = some b →
    pr.2 = { pr.1 with state := SeatState.AVAILABLE, bookingId := none, lockedUntil := none }

instance (pre post : List SeatStatus) (b : Nat) : Decidable (seatsReleasedFrom pre post b) :=
  inferInstanceAs (Decidable (post.length = pre.length ∧
    ∀ pr ∈ pre.zip post, pr.1.bookingId = some b →
      pr.2 = { pr.1 with state := SeatState.AVAILABLE, bookingId := none, lockedUntil := none }))

/-- Row-by-row correspondence between a pre-state and a post-state seat list:
every pre-state row that referenced booking `b` has become BOOKED with its
lock-expiry cleared and nothing else about it — in particular its booking
reference — changed. -/
def seatsBookedFrom (pre post : List SeatStatus) (b : Nat) : Prop :=
  post.length = pre.length ∧
  ∀ pr ∈ pre.zip post, pr.1.bookingId = some b →
    pr.2 = { pr.1 with state := SeatState.BOOKED, lockedUntil := none }

instance (pre post : List SeatStatus) (b : Nat) : Decidable (seatsBookedFrom pre post b) :=
  inferInstanceAs (Decidable (post.length = pre.length ∧
    ∀ pr ∈ pre.zip post, pr.1.bookingId = some b →
      pr.2 = { pr.1 with state := SeatState.BOOKED, lockedUntil := none }))

/-! ### Projection lemmas for the store-update wrappers -/

@[simp] lemma payments_updatePaymentStatus (db : DB) (oc : Nat) (st : PaymentStatus) :
    (updatePaymentStatus db oc st).payments = setPaymentStatus db.payments oc st := rfl

@[simp] lemma bookings_updatePaymentStatus (db : DB) (oc : Nat) (st : PaymentStatus) :
    (updatePaymentStatus db oc st).bookings = db.bookings := rfl

@[simp] lemma seatStatuses_updatePaymentStatus (db : DB) (oc : Nat) (st : PaymentStatus) :
    (updatePaymentStatus db oc st).seatStatuses = db.seatStatuses := rfl

@[simp] lemma payments_markBookingPaid (db : DB) (b : Nat) :
    (markBookingPaid db b).payments = db.payments := rfl

@[simp] lemma bookings_markBookingPaid (db : DB) (b : Nat) :
    (markBookingPaid db b).bookings = setBookingPaid db.bookings b := rfl

@[simp] lemma seatStatuses_markBookingPaid (db : DB) (b : Nat) :
    (markBookingPaid db b).seatStatuses = db.seatStatuses := rfl

@[simp] lemma payments_cancelBooking (db : DB) (b now : Nat) :
    (cancelBooking db b now).payments = db.payments := rfl

@[simp] lemma bookings_cancelBooking (db : DB) (b now : Nat) :
    (cancelBooking db b now).bookings = setBookingCancelled db.bookings b now := rfl

@[simp] lemma seatStatuses_cancelBooking (db : DB) (b now : Nat) :
    (cancelBooking db b now).seatStatuses = db.seatStatuses := rfl

@[simp] lemma payments_bookSeats (db : DB) (b : Nat) :
    (bookSeats db b).payments = db.payments := rfl

@[simp] lemma bookings_bookSeats (db : DB) (b : Nat) :
    (bookSeats db b).bookings = db.bookings := rfl

@[simp] lemma seatStatuses_bookSeats (db : DB) (b : Nat) :
    (bookSeats db b).seatStatuses = setSeatsBooked db.seatStatuses b := rfl

@[simp] lemma payments_releaseSeats (db : DB) (b : Nat) :
    (releaseSeats db b).payments = db.payments := rfl

@[simp] lemma bookings_releaseSeats (db : DB) (b : Nat) :
    (releaseSeats db b).bookings = db.bookings := rfl

@[simp] lemma seatStatuses_releaseSeats (db : DB) (b : Nat) :
    (releaseSeats db b).seatStatuses = setSeatsReleased db.seatStatuses b := rfl

/-! ### List-level lemmas about the repository updates -/

lemma paymentsHaveStatus_setPaymentStatus (ps : List Payment) (oc : Nat) (st : PaymentStatus) :
    paymentsHaveStatus (setPaymentStatus ps oc st) oc st := by
  intro p' hp' hoc
  obtain ⟨p, _, hEq⟩ := List.mem_map.mp hp'
  by_cases h : p.payosOrderCode = oc
  · subst hEq; simp [h]
  · subst hEq
    rw [if_neg (by simpa using h)] at hoc ⊢
    exact absurd hoc h

lemma bookingsHaveStatus_setBookingPaid (bs : List Booking) (b : Nat) :
    bookingsHaveStatus (setBookingPaid bs b) b BookingStatus.PAID := by
  intro bk' hbk' hid
  obtain ⟨bk, _, hEq⟩ := List.mem_map.mp hbk'
  by_cases h : bk.id = b
  · subst hEq; simp [h]
  · subst hEq
    rw [if_neg (by simpa using h)] at hid ⊢
    exact absurd hid h

lemma bookingsCancelledAt_setBookingCancelled (bs : List Booking) (b now : Nat) :
    bookingsCancelledAt (setBookingCancelled bs b now) b now := by
  intro bk' hbk' hid
  obtain ⟨bk, _, hEq⟩ := List.mem_map.mp hbk'
  by_cases h : bk.id = b
  · subst hEq; simp [h]
  · subst hEq
    rw [if_neg (by simpa using h)] at hid ⊢
    exact absurd hid h

lemma seatsBookedFor_setSeatsBooked (ss : List SeatStatus) (b : Nat) :
    seatsBookedFor (setSeatsBooked ss b) b := by
  intro s' hs' hid
  obtain ⟨s, _, hEq⟩ := List.mem_map.mp hs'
  by_cases h : s.bookingId = some b
  · subst hEq; simp [h]
  · subst hEq
    rw [if_neg (by simpa using h)] at hid ⊢
    exact absurd hid h

lemma zip_map_self {α : Type} (l : List α) (f : α → α) :
    l.zip (l.map f) = l.map fun a => (a, f a) := by
  induction l with
  | nil => rfl
  | cons a l ih => simp [ih]

lemma seatsReleasedFrom_setSeatsReleased (ss : List SeatStatus) (b : Nat) :
    seatsReleasedFrom ss (setSeatsReleased ss b) b := by
  unfold seatsReleasedFrom setSeatsReleased
  refine ⟨List.length_map .., ?_⟩
  intro pr hpr hid
  rw [zip_map_self] at hpr
  obtain ⟨s, _, hEq⟩ := List.mem_map.mp hpr
  subst hEq
  simp only at hid ⊢
  rw [if_pos (by simpa using hid)]

lemma seatsBookedFrom_setSeatsBooked (ss : List SeatStatus) (b : Nat) :
    seatsBookedFrom ss (setSeatsBooked ss b) b := by
  unfold seatsBookedFrom setSeatsBooked
  refine ⟨List.length_map .., ?_⟩
  intro pr hpr hid
  rw [zip_map_self] at hpr
  obtain ⟨s, _, hEq⟩ := List.mem_map.mp hpr
  subst hEq
  simp only at hid ⊢
  rw [if_pos (by simpa using hid)]

/-- Mapping `g₁` and then `g₂` over a list collapses to mapping `g₂` alone as
soon as `g₂` absorbs `g₁` pointwise.  Instantiated below with `g₁ = g₂` for
idempotent row patches and with two different patch times for the
cancellation patch. -/
lemma map_map_absorb {α : Type} (g₁ g₂ : α → α) (h : ∀ a, g₂ (g₁ a) = g₂ a) (l : List α) :
    (l.map g₁).map g₂ = l.map g₂ := by
  induction l with
  | nil => rfl
  | cons a l ih => simp [h, ih]

lemma setPaymentStatus_setPaymentStatus (ps : List Payment) (oc : Nat) (st : PaymentStatus) :
    setPaymentStatus (setPaymentStatus ps oc st) oc st = setPaymentStatus ps oc st := by
  unfold setPaymentStatus
  refine map_map_absorb _ _ (fun p => ?_) ps
  by_cases h : p.payosOrderCode = oc <;> simp [h]

lemma setBookingPaid_setBookingPaid (bs : List Booking) (b : Nat) :
    setBookingPaid (setBookingPaid bs b) b = setBookingPaid bs b := by
  unfold setBookingPaid
  refine map_map_absorb _ _ (fun bk => ?_) bs
  by_cases h : bk.id = b <;> simp [h]

lemma setBookingCancelled_setBookingCancelled (bs : List Booking) (b n₁ n₂ : Nat) :
    setBookingCancelled (setBookingCancelled bs b n₁) b n₂ = setBookingCancelled bs b n₂ := by
  unfold setBookingCancelled
  refine map_map_absorb _ _ (fun bk => ?_) bs
  by_cases h : bk.id = b <;> simp [h]

lemma setSeatsBooked_setSeatsBooked (ss : List SeatStatus) (b : Nat) :
    setSeatsBooked (setSeatsBooked ss b) b = setSeatsBooked ss b := by
  unfold setSeatsBooked
  refine map_map_absorb _ _ (fun s => ?_) ss
  by_cases h : s.bookingId = some b <;> simp [h]

lemma setSeatsReleased_setSeatsReleased (ss : List SeatStatus) (b : Nat) :
    setSeatsReleased (setSeatsReleased ss b) b = setSeatsReleased ss b := by
  unfold setSeatsReleased
  refine map_map_absorb _ _ (fun s => ?_) ss
  by_cases h : s.bookingId = some b <;> simp [h]

/-- Looking a payment up by order code after the status patch finds the
patched form of exactly the payment found before the patch: the patch changes
no order code, so the first matching position is unchanged. -/
lemma findPaymentIn_setPaymentStatus (ps : List Payment) (oc : Nat) (st : PaymentStatus) :
    findPaymentIn (setPaymentStatus ps oc st) oc =
      (findPaymentIn ps oc).map fun p => { p with status := st } := by
  unfold findPaymentIn setPaymentStatus
  induction ps with
  | nil => rfl
  | cons p ps ih =>
    simp only [List.map_cons]
    by_cases h : p.payosOrderCode = oc
    · simp [List.find?_cons, h]
    · have hhead : (if (p.payosOrderCode == oc) = true then { p with status := st } else p) = p :=
        if_neg (by simpa using h)
      rw [hhead, List.find?_cons_of_neg _ (by simpa using h),
        List.find?_cons_of_neg _ (by simpa using h)]
      exact ih

@[simp] lemma findBooking_updatePaymentStatus (db : DB) (oc : Nat) (st : PaymentStatus) (b : Nat) :
    findBooking (updatePaymentStatus db oc st) b = findBooking db b := rfl

@[simp] lemma seatsForBooking_updatePaymentStatus (db : DB) (oc : Nat) (st : PaymentStatus)
    (b : Nat) : seatsForBooking (updatePaymentStatus db oc st) b = seatsForBooking db b := rfl

/-! ### Branch-shape lemmas for the fault-free reconciliation run -/

/-- When no payment row matches, the fault-free run is a complete no-op with a
not-found response. -/
lemma handleWebhook_eq_of_notfound (db : DB) (now : Nat) (e : WebhookData)
    (hfind : findPayment db e.orderCode = none) :
    handleWebhook Faults.none db now e = ⟨⟨false, "Payment record not found"⟩, db, []⟩ := by
  simp only [handleWebhook, Faults.none, hfind]
  rfl

/-- Shape of the fault-free run on a success event whose payment has a booking
reference. -/
lemma handleWebhook_none_success_eq (db : DB) (now : Nat) (e : WebhookData) (p : Payment)
    (b : Nat) (hfind : findPayment db e.orderCode = some p) (hbid : p.bookingId = some b)
    (hcode : e.code = "00") :
    handleWebhook Faults.none db now e =
      ⟨⟨true, "Webhook processed successfully"⟩,
       bookSeats (markBookingPaid (updatePaymentStatus db e.orderCode PaymentStatus.COMPLETED) b) b,
       bookingNotifs Faults.none (findBooking db b) b BookingStatus.PAID ++
         seatNotifs Faults.none (some (seatsForBooking db b)) true⟩ := by
  simp [handleWebhook, Faults.none, hfind, hbid, hcode]

/-- Shape of the fault-free run on a failure event whose payment has a booking
reference. -/
lemma handleWebhook_none_failure_eq (db : DB) (now : Nat) (e : WebhookData) (p : Payment)
    (b : Nat) (hfind : findPayment db e.orderCode = some p) (hbid : p.bookingId = some b)
    (hcode : e.code ≠ "00") :
    handleWebhook Faults.none db now e =
      ⟨⟨true, "Webhook processed successfully"⟩,
       releaseSeats (cancelBooking (updatePaymentStatus db e.orderCode PaymentStatus.FAILED) b now) b,
       bookingNotifs Faults.none (findBooking db b) b BookingStatus.CANCELLED ++
         seatNotifs Faults.none (some (seatsForBooking db b)) false⟩ := by
  have hb : (e.code == "00") = false := by simpa using hcode
  simp [handleWebhook, Faults.none, hfind, hbid, hb]

/-- Shape of the fault-free run when the payment has no booking reference:
only the payment status is written. -/
lemma handleWebhook_none_noBooking_eq (db : DB) (now : Nat) (e : WebhookData) (p : Payment)
    (hfind : findPayment db e.orderCode = some p) (hbid : p.bookingId = none) :
    handleWebhook Faults.none db now e =
      ⟨⟨true, "Webhook processed successfully"⟩,
       updatePaymentStatus db e.orderCode
         (if e.code == "00" then PaymentStatus.COMPLETED else PaymentStatus.FAILED), []⟩ := by
  simp [handleWebhook, Faults.none, hfind, hbid]

/-- Looking up the order code after the payment-status write finds the patched
payment row, with every other field as before. -/
lemma findPayment_updatePaymentStatus_of_found (db : DB) (oc : Nat) (st : PaymentStatus)
    (p : Payment) (hfind : findPayment db oc = some p) :
    findPayment (updatePaymentStatus db oc st) oc = some { p with status := st } := by
  unfold findPayment
  simp only [payments_updatePaymentStatus]
  rw [findPaymentIn_setPaymentStatus, show findPaymentIn db.payments oc = some p from hfind]
  rfl

/-! ### Claim theorems -/

/-- C1: for every verified webhook event with `code = "00"` whose order code
matches an existing Payment that has a Booking reference (with the booking row
present and at least one seat row referencing it), the fault-free run leaves
every matching Payment COMPLETED, the Booking PAID, every SeatStatus row
referencing the Booking BOOKED with its lock-expiry cleared, and emits exactly
one `notifyBookingStatusChanged(b, PAID, …)` and one `notifySeatBooked(tripId,
seatIds)` call for the event. -/
theorem handleWebhook_success_reconciliation (db : DB) (now : Nat) (e : WebhookData)
    (p : Payment) (b : Nat) (bk : Booking) (s0 : SeatStatus) (rest : List SeatStatus)
    (hcode : e.code = "00")
    (hfind : findPayment db e.orderCode = some p)
    (hbid : p.bookingId = some b)
    (hbk : findBooking db b = some bk)
    (hseats : seatsForBooking db b = s0 :: rest) :
    paymentsHaveStatus (handleWebhook Faults.none db now e).db.payments e.orderCode
      PaymentStatus.COMPLETED ∧
    bookingsHaveStatus (handleWebhook Faults.none db now e).db.bookings b BookingStatus.PAID ∧
    seatsBookedFor (handleWebhook Faults.none db now e).db.seatStatuses b ∧
    (handleWebhook Faults.none db now e).notifications =
      [Notification.bookingStatusChanged b BookingStatus.PAID,
       Notification.seatBooked s0.tripId ((s0 :: rest).map fun s => s.seatId)] ∧
    (handleWebhook Faults.none db now e).response = ⟨true, "Webhook processed successfully"⟩ := by
  rw [handleWebhook_none_success_eq db now e p b hfind hbid hcode]
  refine ⟨?_, ?_, ?_, ?_, rfl⟩
  · simpa using paymentsHaveStatus_setPaymentStatus db.payments e.orderCode PaymentStatus.COMPLETED
  · simpa using bookingsHaveStatus_setBookingPaid db.bookings b
  · simpa using seatsBookedFor_setSeatsBooked db.seatStatuses b
  · simp [bookingNotifs, seatNotifs, Faults.none, hbk, hseats]

/-- Concrete store for the C1 witness: one PENDING payment for order 12345 on
booking 42, the booking row, and two LOCKED seats on trip 9. -/
def dbW1 : DB :=
  ⟨[⟨7, some 42, "PAYOS", "tx", 12345, 500000, PaymentStatus.PENDING⟩],
   [⟨42, BookingStatus.PENDING, none⟩],
   [⟨1, 100, 9, some 42, SeatState.LOCKED, some 999⟩,
    ⟨2, 101, 9, some 42, SeatState.LOCKED, some 999⟩]⟩

/-- Success webhook event for order 12345, used by the C1 and C10 witnesses. -/
def eW1 : WebhookData := ⟨12345, 500000, "d", "00", "ok"⟩

theorem handleWebhook_success_reconciliation_witness :
    eW1.code = "00" ∧
    findPayment dbW1 eW1.orderCode =
      some ⟨7, some 42, "PAYOS", "tx", 12345, 500000, PaymentStatus.PENDING⟩ ∧
    (Payment.mk 7 (some 42) "PAYOS" "tx" 12345 500000 PaymentStatus.PENDING).bookingId =
      some 42 ∧
    findBooking dbW1 42 = some ⟨42, BookingStatus.PENDING, none⟩ ∧
    seatsForBooking dbW1 42 =
      ⟨1, 100, 9, some 42, SeatState.LOCKED, some 999⟩ ::
        [⟨2, 101, 9, some 42, SeatState.LOCKED, some 999⟩] ∧
    (paymentsHaveStatus (handleWebhook Faults.none dbW1 5 eW1).db.payments eW1.orderCode
        PaymentStatus.COMPLETED ∧
      bookingsHaveStatus (handleWebhook Faults.none dbW1 5 eW1).db.bookings 42
        BookingStatus.PAID ∧
      seatsBookedFor (handleWebhook Faults.none dbW1 5 eW1).db.seatStatuses 42 ∧
      (handleWebhook Faults.none dbW1 5 eW1).notifications =
        [Notification.bookingStatusChanged 42 BookingStatus.PAID,
         Notification.seatBooked (SeatStatus.mk 1 100 9 (some 42) SeatState.LOCKED
             (some 999)).tripId
           ((SeatStatus.mk 1 100 9 (some 42) SeatState.LOCKED (some 999) ::
               [SeatStatus.mk 2 101 9 (some 42) SeatState.LOCKED (some 999)]).map
             fun s => s.seatId)] ∧
      (handleWebhook Faults.none dbW1 5 eW1).response =
        ⟨true, "Webhook processed successfully"⟩) :=
  ⟨rfl, by decide, rfl, by decide, by decide,
   handleWebhook_success_reconciliation dbW1 5 eW1
     ⟨7, some 42, "PAYOS", "tx", 12345, 500000, PaymentStatus.PENDING⟩ 42
     ⟨42, BookingStatus.PENDING, none⟩
     ⟨1, 100, 9, some 42, SeatState.LOCKED, some 999⟩
     [⟨2, 101, 9, some 42, SeatState.LOCKED, some 999⟩]
     rfl (by decide) rfl (by decide) (by decide)⟩

/-- C2: for every verified webhook event with `code ≠ "00"` whose order code
matches an existing Payment that has a Booking reference, the fault-free run
leaves every matching Payment FAILED, every Booking row with that id CANCELLED
with the (non-null) cancellation timestamp set to the processing time, and
turns every SeatStatus row that referenced the Booking into AVAILABLE with its
booking reference and lock-expiry cleared. -/
theorem handleWebhook_failure_reconciliation (db : DB) (now : Nat) (e : WebhookData)
    (p : Payment) (b : Nat)
    (hcode : e.code ≠ "00")
    (hfind : findPayment db e.orderCode = some p)
    (hbid : p.bookingId = some b) :
    paymentsHaveStatus (handleWebhook Faults.none db now e).db.payments e.orderCode
      PaymentStatus.FAILED ∧
    bookingsCancelledAt (handleWebhook Faults.none db now e).db.bookings b now ∧
    seatsReleasedFrom db.seatStatuses (handleWebhook Faults.none db now e).db.seatStatuses b ∧
    (handleWebhook Faults.none db now e).response = ⟨true, "Webhook processed successfully"⟩ := by
  rw [handleWebhook_none_failure_eq db now e p b hfind hbid hcode]
  refine ⟨?_, ?_, ?_, rfl⟩
  · simpa using paymentsHaveStatus_setPaymentStatus db.payments e.orderCode PaymentStatus.FAILED
  · simpa using bookingsCancelledAt_setBookingCancelled db.bookings b now
  · simpa using seatsReleasedFrom_setSeatsReleased db.seatStatuses b

/-- Concrete store for the C2 witness. -/
def dbW2 : DB :=
  ⟨[⟨7, some 42, "PAYOS", "tx", 12345, 500000, PaymentStatus.PENDING⟩],
   [⟨42, BookingStatus.PENDING, none⟩],
   [⟨1, 100, 9, some 42, SeatState.LOCKED, some 999⟩]⟩

/-- Failure webhook event for order 12345 (result code "01"). -/
def eW2 : WebhookData := ⟨12345, 500000, "d", "01", "declined"⟩

theorem handleWebhook_failure_reconciliation_witness :
    eW2.code ≠ "00" ∧
    findPayment dbW2 eW2.orderCode =
      some ⟨7, some 42, "PAYOS", "tx", 12345, 500000, PaymentStatus.PENDING⟩ ∧
    (Payment.mk 7 (some 42) "PAYOS" "tx" 12345 500000 PaymentStatus.PENDING).bookingId =
      some 42 ∧
    (paymentsHaveStatus (handleWebhook Faults.none dbW2 5 eW2).db.payments eW2.orderCode
        PaymentStatus.FAILED ∧
      bookingsCancelledAt (handleWebhook Faults.none dbW2 5 eW2).db.bookings 42 5 ∧
      seatsReleasedFrom dbW2.seatStatuses (handleWebhook Faults.none dbW2 5 eW2).db.seatStatuses
        42 ∧
      (handleWebhook Faults.none dbW2 5 eW2).response =
        ⟨true, "Webhook processed successfully"⟩) :=
  ⟨by decide, by decide, rfl,
   handleWebhook_failure_reconciliation dbW2 5 eW2
     ⟨7, some 42, "PAYOS", "tx", 12345, 500000, PaymentStatus.PENDING⟩ 42
     (by decide) (by decide) rfl⟩

/-- C4: a webhook for an order code with no matching Payment row leaves the
store untouched, emits no notification, and returns `success: false` with the
"Payment record not found" message. -/
theorem handleWebhook_notFound_noop (db : DB) (now : Nat) (e : WebhookData)
    (hfind : findPayment db e.orderCode = none) :
    handleWebhook Faults.none db now e = ⟨⟨false, "Payment record not found"⟩, db, []⟩ :=
  handleWebhook_eq_of_notfound db now e hfind

theorem handleWebhook_notFound_noop_witness :
    findPayment (DB.mk [⟨7, some 42, "PAYOS", "tx", 99, 500, PaymentStatus.PENDING⟩]
        [⟨42, BookingStatus.PENDING, none⟩] []) (WebhookData.mk 12345 500 "d" "00" "ok").orderCode
      = none ∧
    handleWebhook Faults.none
        (DB.mk [⟨7, some 42, "PAYOS", "tx", 99, 500, PaymentStatus.PENDING⟩]
          [⟨42, BookingStatus.PENDING, none⟩] []) 0 ⟨12345, 500, "d", "00", "ok"⟩ =
      ⟨⟨false, "Payment record not found"⟩,
       DB.mk [⟨7, some 42, "PAYOS", "tx", 99, 500, PaymentStatus.PENDING⟩]
         [⟨42, BookingStatus.PENDING, none⟩] [], []⟩ :=
  ⟨by decide,
   handleWebhook_notFound_noop
     (DB.mk [⟨7, some 42, "PAYOS", "tx", 99, 500, PaymentStatus.PENDING⟩]
       [⟨42, BookingStatus.PENDING, none⟩] []) 0 ⟨12345, 500, "d", "00", "ok"⟩ (by decide)⟩

/-- Replaying a webhook event converges: applying it a second time (at clock
reading `n₂`) on top of a first application (at clock reading `n₁`) yields the
same store as a single application at `n₂`.  The only clock-dependent write is
the cancellation timestamp of the failure branch, which the replay simply
overwrites; every other patch is idempotent and the replay follows the same
branch because the payment row keeps its order code and booking reference. -/
lemma replayConvergenceAux (db : DB) (n₁ n₂ : Nat) (e : WebhookData) :
    (handleWebhook Faults.none (handleWebhook Faults.none db n₁ e).db n₂ e).db =
      (handleWebhook Faults.none db n₂ e).db := by
  cases hfind : findPayment db e.orderCode with
  | none => rw [handleWebhook_eq_of_notfound db n₁ e hfind]
  | some p =>
    cases hbid : p.bookingId with
    | none =>
      rw [handleWebhook_none_noBooking_eq db n₁ e p hfind hbid,
          handleWebhook_none_noBooking_eq db n₂ e p hfind hbid]
      dsimp only
      rw [handleWebhook_none_noBooking_eq _ n₂ e _
        (findPayment_updatePaymentStatus_of_found db e.orderCode _ p hfind)
        (by simpa using hbid)]
      dsimp only
      apply DB.ext <;> simp [setPaymentStatus_setPaymentStatus]
    | some b =>
      cases hc : e.code == "00" with
      | true =>
        have hcode : e.code = "00" := by simpa using hc
        rw [handleWebhook_none_success_eq db n₁ e p b hfind hbid hcode,
            handleWebhook_none_success_eq db n₂ e p b hfind hbid hcode]
        dsimp only
        have hfind3 : findPayment
            (bookSeats (markBookingPaid
              (updatePaymentStatus db e.orderCode PaymentStatus.COMPLETED) b) b) e.orderCode =
            some { p with status := PaymentStatus.COMPLETED } := by
          unfold findPayment
          simp only [payments_bookSeats, payments_markBookingPaid, payments_updatePaymentStatus]
          rw [findPaymentIn_setPaymentStatus,
            show findPaymentIn db.payments e.orderCode = some p from hfind]
          rfl
        rw [handleWebhook_none_success_eq _ n₂ e _ b hfind3 (by simpa using hbid) hcode]
        dsimp only
        apply DB.ext <;>
          simp [setPaymentStatus_setPaymentStatus, setBookingPaid_setBookingPaid,
            setSeatsBooked_setSeatsBooked]
      | false =>
        have hcode : e.code ≠ "00" := by simpa using hc
        rw [handleWebhook_none_failure_eq db n₁ e p b hfind hbid hcode,
            handleWebhook_none_failure_eq db n₂ e p b hfind hbid hcode]
        dsimp only
        have hfind3 : findPayment
            (releaseSeats (cancelBooking
              (updatePaymentStatus db e.orderCode PaymentStatus.FAILED) b n₁) b) e.orderCode =
            some { p with status := PaymentStatus.FAILED } := by
          unfold findPayment
          simp only [payments_releaseSeats, payments_cancelBooking, payments_updatePaymentStatus]
          rw [findPaymentIn_setPaymentStatus,
            show findPaymentIn db.payments e.orderCode = some p from hfind]
          rfl
        rw [handleWebhook_none_failure_eq _ n₂ e _ b hfind3 (by simpa using hbid) hcode]
        dsimp only
        apply DB.ext <;>
          simp [setPaymentStatus_setPaymentStatus, setBookingCancelled_setBookingCancelled,
            setSeatsReleased_setSeatsReleased]

/-- C3 (amended): replaying the same webhook event is convergent, not
literally idempotent — the second application (at clock reading `n₂`, the
`new Date()` of the replay) leaves the store exactly as a single application
at `n₂` would, so replaying at an unchanged clock reading reproduces the state
of a single application verbatim; on a failure event with an advanced clock
the Booking's cancellation timestamp is refreshed to the replay's time. -/
theorem handleWebhook_replay_convergence (db : DB) (n₁ n₂ : Nat) (e : WebhookData) :
    ((handleWebhook Faults.none (handleWebhook Faults.none db n₁ e).db n₂ e).db =
      (handleWebhook Faults.none db n₂ e).db) ∧
    ((handleWebhook Faults.none (handleWebhook Faults.none db n₁ e).db n₁ e).db =
      (handleWebhook Faults.none db n₁ e).db) :=
  ⟨replayConvergenceAux db n₁ n₂ e, replayConvergenceAux db n₁ n₁ e⟩

/-- Store for the C3 counterexample: a PENDING payment on booking 42 with one
LOCKED seat. -/
def dbC3 : DB :=
  ⟨[⟨7, some 42, "PAYOS", "tx", 12345, 500000, PaymentStatus.PENDING⟩],
   [⟨42, BookingStatus.PENDING, none⟩],
   [⟨1, 100, 9, some 42, SeatState.LOCKED, some 999⟩]⟩

/-- Failure webhook event for order 12345, used by the C3 counterexample. -/
def eC3 : WebhookData := ⟨12345, 500000, "d", "01", "declined"⟩

/-- C3 counterexample: applying the same failure event twice in sequence —
first at clock reading 0, then at clock reading 1, as `new Date()` advances
between deliveries — does not leave the records in the state of a single
application: the replay overwrites the Booking's `cancelledAt` (0 becomes 1). -/
theorem handleWebhook_replay_changes_cancelledAt :
    (handleWebhook Faults.none (handleWebhook Faults.none dbC3 0 eC3).db 1 eC3).db ≠
      (handleWebhook Faults.none dbC3 0 eC3).db := by decide

/-- C8: when the provider call of `createPaymentLink` fails, the error
propagates to the caller (`threw = true`) and the store is returned exactly as
it was: no Payment row, partial or otherwise, is persisted, whatever the later
fault flags, request payload or generated order code would have been. -/
theorem createPaymentLink_providerFailure_noPersist (saveFault : Bool) (db : DB)
    (newId orderCode : Nat) (dto : CreatePaymentDto) (linkId : String) :
    createPaymentLink true saveFault db newId orderCode dto linkId = ⟨true, db⟩ := rfl

/-- C9: for every current-time millisecond timestamp and every random draw
(`Math.floor(Math.random() * 1000)`, hence `< 1000`), the generated order code
is exactly the low-order five decimal digits of the timestamp shifted past the
3-digit zero-padded draw, clamped to 2147483647; it always lies within
`[0, 2147483647]`, and in fact never exceeds 99999999, so the clamp is a
safety margin that is never hit. -/
theorem generateOrderCode_range (t r : Nat) (h : r < 1000) :
    generateOrderCode t r = min ((t % 100000) * 1000 + r) 2147483647 ∧
    generateOrderCode t r = (t % 100000) * 1000 + r ∧
    generateOrderCode t r ≤ 2147483647 := by
  have h5 : t % 100000 < 100000 := Nat.mod_lt _ (by norm_num)
  refine ⟨rfl, ?_, min_le_right _ _⟩
  have : (t % 100000) * 1000 + r ≤ 2147483647 := by omega
  simpa [generateOrderCode, concatPad3] using Nat.min_eq_left this

theorem generateOrderCode_range_witness :
    987 < 1000 ∧
    (generateOrderCode 1696787654321 987 = min ((1696787654321 % 100000) * 1000 + 987) 2147483647 ∧
      generateOrderCode 1696787654321 987 = (1696787654321 % 100000) * 1000 + 987 ∧
      generateOrderCode 1696787654321 987 ≤ 2147483647) :=
  ⟨by norm_num, generateOrderCode_range 1696787654321 987 (by norm_num)⟩

/-- C10: on a success webhook with a matching Payment that has a Booking
reference, the fault-free run rewrites each seat row referencing the Booking
to the same row with only its state set to BOOKED and its lock-expiry cleared:
in particular the booking reference is left unchanged and still non-null. -/
theorem handleWebhook_success_seat_frame (db : DB) (now : Nat) (e : WebhookData)
    (p : Payment) (b : Nat)
    (hcode : e.code = "00")
    (hfind : findPayment db e.orderCode = some p)
    (hbid : p.bookingId = some b) :
    seatsBookedFrom db.seatStatuses (handleWebhook Faults.none db now e).db.seatStatuses b ∧
    ∀ pr ∈ db.seatStatuses.zip (handleWebhook Faults.none db now e).db.seatStatuses,
      pr.1.bookingId = some b → pr.2.bookingId = some b := by
  rw [handleWebhook_none_success_eq db now e p b hfind hbid hcode]
  have h1 := seatsBookedFrom_setSeatsBooked db.seatStatuses b
  constructor
  · simpa using h1
  · intro pr hpr hb1
    have h2 := h1.2 pr (by simpa using hpr) hb1
    rw [h2]
    exact hb1

/-- Fault schedule for C5: only the SeatStatus update call throws; payment and
booking writes, fetches and notifications all succeed. -/
def seatUpdateFaultOnly : Faults := ⟨false, false, false, false, false, false, true, false, false⟩

/-- Shape of the run under `seatUpdateFaultOnly` on a success event: identical
to the fault-free run except that the seat-status write is skipped. -/
lemma handleWebhook_f5_success_eq (db : DB) (now : Nat) (e : WebhookData) (p : Payment)
    (b : Nat) (hfind : findPayment db e.orderCode = some p) (hbid : p.bookingId = some b)
    (hcode : e.code = "00") :
    handleWebhook seatUpdateFaultOnly db now e =
      ⟨⟨true, "Webhook processed successfully"⟩,
       markBookingPaid (updatePaymentStatus db e.orderCode PaymentStatus.COMPLETED) b,
       bookingNotifs Faults.none (findBooking db b) b BookingStatus.PAID ++
         seatNotifs Faults.none (some (seatsForBooking db b)) true⟩ := by
  simp [handleWebhook, seatUpdateFaultOnly, Faults.none, hfind, hbid, hcode, bookingNotifs,
    seatNotifs]

/-- Shape of the run under `seatUpdateFaultOnly` on a failure event. -/
lemma handleWebhook_f5_failure_eq (db : DB) (now : Nat) (e : WebhookData) (p : Payment)
    (b : Nat) (hfind : findPayment db e.orderCode = some p) (hbid : p.bookingId = some b)
    (hcode : e.code ≠ "00") :
    handleWebhook seatUpdateFaultOnly db now e =
      ⟨⟨true, "Webhook processed successfully"⟩,
       cancelBooking (updatePaymentStatus db e.orderCode PaymentStatus.FAILED) b now,
       bookingNotifs Faults.none (findBooking db b) b BookingStatus.CANCELLED ++
         seatNotifs Faults.none (some (seatsForBooking db b)) false⟩ := by
  have hb : (e.code == "00") = false := by simpa using hcode
  simp [handleWebhook, seatUpdateFaultOnly, Faults.none, hfind, hbid, hb, bookingNotifs,
    seatNotifs]

/-- C5: when the SeatStatus update throws after the Payment (and Booking)
updates succeeded, the run still returns `success: true`, every matching
Payment row keeps the status the event dictates (COMPLETED on success, FAILED
on failure), and the remaining downstream steps are not blocked: the
notifications emitted are exactly those of the fault-free run. -/
theorem handleWebhook_seatUpdateFault_isolated (db : DB) (now : Nat) (e : WebhookData)
    (p : Payment) (b : Nat)
    (hfind : findPayment db e.orderCode = some p)
    (hbid : p.bookingId = some b) :
    (handleWebhook seatUpdateFaultOnly db now e).response =
      ⟨true, "Webhook processed successfully"⟩ ∧
    paymentsHaveStatus (handleWebhook seatUpdateFaultOnly db now e).db.payments e.orderCode
      (if e.code == "00" then PaymentStatus.COMPLETED else PaymentStatus.FAILED) ∧
    (handleWebhook seatUpdateFaultOnly db now e).notifications =
      (handleWebhook Faults.none db now e).notifications := by
  by_cases hc : e.code = "00"
  · rw [handleWebhook_f5_success_eq db now e p b hfind hbid hc,
        handleWebhook_none_success_eq db now e p b hfind hbid hc]
    refine ⟨rfl, ?_, rfl⟩
    have hif : (if e.code == "00" then PaymentStatus.COMPLETED else PaymentStatus.FAILED) =
        PaymentStatus.COMPLETED := by simp [hc]
    rw [hif]
    simpa using paymentsHaveStatus_setPaymentStatus db.payments e.orderCode PaymentStatus.COMPLETED
  · rw [handleWebhook_f5_failure_eq db now e p b hfind hbid hc,
        handleWebhook_none_failure_eq db now e p b hfind hbid hc]
    refine ⟨rfl, ?_, rfl⟩
    have hif : (if e.code == "00" then PaymentStatus.COMPLETED else PaymentStatus.FAILED) =
        PaymentStatus.FAILED := by simp [hc]
    rw [hif]
    simpa using paymentsHaveStatus_setPaymentStatus db.payments e.orderCode PaymentStatus.FAILED

/-- Concrete store for the C5 witness. -/
def dbW5 : DB :=
  ⟨[⟨7, some 42, "PAYOS", "tx", 12345, 500000, PaymentStatus.PENDING⟩],
   [⟨42, BookingStatus.PENDING, none⟩],
   [⟨1, 100, 9, some 42, SeatState.LOCKED, some 999⟩]⟩

/-- Success webhook event for order 12345, used by the C5 witness. -/
def eW5 : WebhookData := ⟨12345, 500000, "d", "00", "ok"⟩

theorem handleWebhook_seatUpdateFault_isolated_witness :
    findPayment dbW5 eW5.orderCode =
      some ⟨7, some 42, "PAYOS", "tx", 12345, 500000, PaymentStatus.PENDING⟩ ∧
    (Payment.mk 7 (some 42) "PAYOS" "tx" 12345 500000 PaymentStatus.PENDING).bookingId =
      some 42 ∧
    ((handleWebhook seatUpdateFaultOnly dbW5 3 eW5).response =
        ⟨true, "Webhook processed successfully"⟩ ∧
      paymentsHaveStatus (handleWebhook seatUpdateFaultOnly dbW5 3 eW5).db.payments
        eW5.orderCode
        (if eW5.code == "00" then PaymentStatus.COMPLETED else PaymentStatus.FAILED) ∧
      (handleWebhook seatUpdateFaultOnly dbW5 3 eW5).notifications =
        (handleWebhook Faults.none dbW5 3 eW5).notifications) :=
  ⟨by decide, rfl,
   handleWebhook_seatUpdateFault_isolated dbW5 3 eW5
     ⟨7, some 42, "PAYOS", "tx", 12345, 500000, PaymentStatus.PENDING⟩ 42 (by decide) rfl⟩

/-- C6: whatever the fault schedule (any database error at any step, any
gateway failure, or an unexpected fault outside the inner handlers), the run
resolves to one of the five structured `{success, message}` results and never
propagates a fault; an unexpected fault is reported as
`{success: false, message: "Failed to process webhook"}`. -/
theorem handleWebhook_total_structured_result (faults : Faults) (db : DB) (now : Nat)
    (e : WebhookData) :
    (handleWebhook faults db now e).response ∈
      [WebhookResponseDto.mk true "Webhook processed successfully",
       ⟨false, "Payment record not found"⟩,
       ⟨false, "Database error when fetching payment record"⟩,
       ⟨false, "Failed to update payment status"⟩,
       ⟨false, "Failed to process webhook"⟩] ∧
    (faults.unexpectedFault = true →
      (handleWebhook faults db now e).response = ⟨false, "Failed to process webhook"⟩) := by
  constructor
  · by_cases h1 : faults.unexpectedFault = true
    · simp [handleWebhook, h1]
    · by_cases h2 : faults.paymentFindFault = true
      · simp [handleWebhook, h1, h2]
      · cases hfind : findPayment db e.orderCode with
        | none => simp [handleWebhook, h1, h2, hfind]
        | some p =>
          by_cases h3 : faults.paymentUpdateFault = true
          · simp [handleWebhook, h1, h2, h3, hfind]
          · cases hbid : p.bookingId with
            | none => simp [handleWebhook, h1, h2, h3, hfind, hbid]
            | some b =>
              cases hc : e.code == "00" <;>
                simp [handleWebhook, h1, h2, h3, hfind, hbid, hc]
  · intro h1
    simp [handleWebhook, h1]

theorem handleWebhook_total_structured_result_witness :
    ((handleWebhook ⟨true, false, false, false, false, false, false, false, false⟩
        (DB.mk [] [] []) 0 ⟨1, 2, "d", "00", "x"⟩).response ∈
      [WebhookResponseDto.mk true "Webhook processed successfully",
       ⟨false, "Payment record not found"⟩,
       ⟨false, "Database error when fetching payment record"⟩,
       ⟨false, "Failed to update payment status"⟩,
       ⟨false, "Failed to process webhook"⟩]) ∧
    (handleWebhook ⟨true, false, false, false, false, false, false, false, false⟩
        (DB.mk [] [] []) 0 ⟨1, 2, "d", "00", "x"⟩).response =
      ⟨false, "Failed to process webhook"⟩ :=
  ⟨(handleWebhook_total_structured_result
      ⟨true, false, false, false, false, false, false, false, false⟩
      (DB.mk [] [] []) 0 ⟨1, 2, "d", "00", "x"⟩).1,
   (handleWebhook_total_structured_result
      ⟨true, false, false, false, false, false, false, false, false⟩
      (DB.mk [] [] []) 0 ⟨1, 2, "d", "00", "x"⟩).2 rfl⟩

/-- Fault schedule for C7: only the cascading Booking update throws. -/
def cancelBookingUpdateFault : CancelFaults := ⟨false, false, false, true, false, false, false⟩

/-- Fault schedule for C7: only the SeatStatus release throws. -/
def cancelSeatUpdateFault : CancelFaults := ⟨false, false, false, false, false, true, false⟩

/-- Fault schedule for C7: only the seat-availability notification throws. -/
def cancelNotifyFault : CancelFaults := ⟨false, false, false, false, false, false, true⟩

/-- C7: in `cancelPayment`, when a local Payment with a Booking reference
exists, a failure of the cascading Booking update or of the SeatStatus release
propagates (`threw = true`) but does not revert the Payment's CANCELLED
status (nor, for the seat release, the Booking's cancellation); and a failure
of the notification step leaves the store exactly as the fault-free run does —
no state mutation is rolled back. -/
theorem cancelPayment_partial_failure_isolation (db : DB) (now oc : Nat) (p : Payment) (b : Nat)
    (hfind : findPayment db oc = some p) (hbid : p.bookingId = some b) :
    ((cancelPayment cancelBookingUpdateFault db now oc).threw = true ∧
      paymentsHaveStatus (cancelPayment cancelBookingUpdateFault db now oc).db.payments oc
        PaymentStatus.CANCELLED) ∧
    ((cancelPayment cancelSeatUpdateFault db now oc).threw = true ∧
      paymentsHaveStatus (cancelPayment cancelSeatUpdateFault db now oc).db.payments oc
        PaymentStatus.CANCELLED ∧
      bookingsCancelledAt (cancelPayment cancelSeatUpdateFault db now oc).db.bookings b now) ∧
    ((cancelPayment cancelNotifyFault db now oc).db =
      (cancelPayment CancelFaults.none db now oc).db) := by
  have hshape1 : cancelPayment cancelBookingUpdateFault db now oc =
      ⟨true, updatePaymentStatus db oc PaymentStatus.CANCELLED, []⟩ := by
    simp [cancelPayment, cancelBookingUpdateFault, hfind, hbid]
  have hshape2 : cancelPayment cancelSeatUpdateFault db now oc =
      ⟨true, cancelBooking (updatePaymentStatus db oc PaymentStatus.CANCELLED) b now, []⟩ := by
    cases hs : seatsForBooking (cancelBooking (updatePaymentStatus db oc
        PaymentStatus.CANCELLED) b now) b with
    | nil => simp [cancelPayment, cancelSeatUpdateFault, hfind, hbid, hs]
    | cons s rest => simp [cancelPayment, cancelSeatUpdateFault, hfind, hbid, hs]
  have hshape3 : (cancelPayment cancelNotifyFault db now oc).db =
      (cancelPayment CancelFaults.none db now oc).db := by
    cases hs : seatsForBooking (cancelBooking (updatePaymentStatus db oc
        PaymentStatus.CANCELLED) b now) b with
    | nil => simp [cancelPayment, cancelNotifyFault, CancelFaults.none, hfind, hbid, hs]
    | cons s rest => simp [cancelPayment, cancelNotifyFault, CancelFaults.none, hfind, hbid, hs]
  refine ⟨⟨by rw [hshape1], ?_⟩, ⟨by rw [hshape2], ?_, ?_⟩, hshape3⟩
  · rw [hshape1]
    simpa using paymentsHaveStatus_setPaymentStatus db.payments oc PaymentStatus.CANCELLED
  · rw [hshape2]
    simpa using paymentsHaveStatus_setPaymentStatus db.payments oc PaymentStatus.CANCELLED
  · rw [hshape2]
    simpa using bookingsCancelledAt_setBookingCancelled db.bookings b now

/-- Concrete store for the C7 witness. -/
def dbW7 : DB :=
  ⟨[⟨3, some 42, "PAYOS", "tx", 777, 25000, PaymentStatus.PENDING⟩],
   [⟨42, BookingStatus.PENDING, none⟩],
   [⟨1, 100, 9, some 42, SeatState.LOCKED, some 999⟩]⟩

theorem cancelPayment_partial_failure_isolation_witness :
    findPayment dbW7 777 =
      some ⟨3, some 42, "PAYOS", "tx", 777, 25000, PaymentStatus.PENDING⟩ ∧
    (Payment.mk 3 (some 42) "PAYOS" "tx" 777 25000 PaymentStatus.PENDING).bookingId = some 42 ∧
    (((cancelPayment cancelBookingUpdateFault dbW7 6 777).threw = true ∧
        paymentsHaveStatus (cancelPayment cancelBookingUpdateFault dbW7 6 777).db.payments 777
          PaymentStatus.CANCELLED) ∧
      ((cancelPayment cancelSeatUpdateFault dbW7 6 777).threw = true ∧
        paymentsHaveStatus (cancelPayment cancelSeatUpdateFault dbW7 6 777).db.payments 777
          PaymentStatus.CANCELLED ∧
        bookingsCancelledAt (cancelPayment cancelSeatUpdateFault dbW7 6 777).db.bookings 42 6) ∧
      ((cancelPayment cancelNotifyFault dbW7 6 777).db =
        (cancelPayment CancelFaults.none dbW7 6 777).db)) :=
  ⟨by decide, rfl,
   cancelPayment_partial_failure_isolation dbW7 6 777
     ⟨3, some 42, "PAYOS", "tx", 777, 25000, PaymentStatus.PENDING⟩ 42 (by decide) rfl⟩

theorem handleWebhook_success_seat_frame_witness :
    eW1.code = "00" ∧
    findPayment dbW1 eW1.orderCode =
      some ⟨7, some 42, "PAYOS", "tx", 12345, 500000, PaymentStatus.PENDING⟩ ∧
    (Payment.mk 7 (some 42) "PAYOS" "tx" 12345 500000 PaymentStatus.PENDING).bookingId =
      some 42 ∧
    (seatsBookedFrom dbW1.seatStatuses (handleWebhook Faults.none dbW1 5 eW1).db.seatStatuses
        42 ∧
      ∀ pr ∈ dbW1.seatStatuses.zip (handleWebhook Faults.none dbW1 5 eW1).db.seatStatuses,
        pr.1.bookingId = some 42 → pr.2.bookingId = some 42) :=
  ⟨rfl, by decide, rfl,
   handleWebhook_success_seat_frame dbW1 5 eW1
     ⟨7, some 42, "PAYOS", "tx", 12345, 500000, PaymentStatus.PENDING⟩ 42
     rfl (by decide) rfl⟩

end BusTicket
